import Mathlib

/-!
Shallow embedding of the pose-overlay core of the NCI repository:
the overlay renderer (`src/logic/poseDetection.js`: `drawPoseResults`,
`drawManualMask`), the drawing utilities (`calculatePoseBoundingBox`,
`drawPoseBoundingBox`), and the frame scheduler of the main video
component (`runDetectionLoop`, `toggleDetection`).

Numbers from the JavaScript source are modelled as rationals (`Rat`);
the order/arithmetic facts proved here hold in any ordered field.
Canvas side effects are modelled as an explicit list of draw events, and
the externally-owned segmentation mask's `close()` calls are counted.
-/

namespace NCI

/-- A single pose landmark. The overlay code reads only the normalized
`x` and `y` coordinates of each landmark. -/
structure Landmark where
  x : Rat
  y : Rat
deriving DecidableEq, Repr

/-- Accumulator of the bounding-box loop of `calculatePoseBoundingBox`:
the running `minX`, `minY`, `maxX`, `maxY` values.  In the source the
min accumulators start at `1.0` and the max accumulators at `0.0`. -/
structure BBoxAcc where
  minX : Rat
  minY : Rat
  maxX : Rat
  maxY : Rat
deriving DecidableEq, Repr

/-- One iteration of the `for (const landmark of landmarks)` loop:
`minX = Math.min(minX, landmark.x)`, `minY = Math.min(minY, landmark.y)`,
`maxX = Math.max(maxX, landmark.x)`, `maxY = Math.max(maxY, landmark.y)`. -/
def bboxStep (acc : BBoxAcc) (lm : Landmark) : BBoxAcc :=
  ⟨min acc.minX lm.x, min acc.minY lm.y, max acc.maxX lm.x, max acc.maxY lm.y⟩

/-- The bounding-box record returned by `calculatePoseBoundingBox`. -/
structure BBox where
  minX : Rat
  minY : Rat
  maxX : Rat
  maxY : Rat
  normalizedWidth : Rat
  normalizedHeight : Rat
deriving DecidableEq, Repr

/-- `calculatePoseBoundingBox(landmarks)` from the pose-drawing utilities:
returns `null` for a missing/empty landmark list; otherwise folds the
min/max accumulators (started at `1.0`/`0.0`) over the landmarks and,
when `minX <= maxX && minY <= maxY`, returns the box together with
`normalizedWidth = maxX - minX` and `normalizedHeight = maxY - minY`;
otherwise returns `null`. -/
def calculatePoseBoundingBox (landmarks : List Landmark) : Option BBox :=
  if landmarks.isEmpty then none
  else
    let acc := landmarks.foldl bboxStep ⟨1, 1, 0, 0⟩
    if acc.minX ≤ acc.maxX ∧ acc.minY ≤ acc.maxY then
      some ⟨acc.minX, acc.minY, acc.maxX, acc.maxY,
            acc.maxX - acc.minX, acc.maxY - acc.minY⟩
    else
      none

/-- `drawPoseBoundingBox(ctx, box, videoWidth, videoHeight)`: returns the
list of stroked rectangles `(x, y, w, h)` issued to the canvas context.
A `null` box draws nothing (`if (!box) return`); otherwise one rectangle
at `(minX * videoWidth, minY * videoHeight)` sized
`(normalizedWidth * videoWidth, normalizedHeight * videoHeight)`. -/
def drawPoseBoundingBox (box : Option BBox) (videoWidth videoHeight : Rat) :
    List (Rat × Rat × Rat × Rat) :=
  match box with
  | none => []
  | some b =>
      [(b.minX * videoWidth, b.minY * videoHeight,
        b.normalizedWidth * videoWidth, b.normalizedHeight * videoHeight)]

/-- The scale-and-center transform computed inside `drawPoseResults`
(poseDetection.js lines 102–107). -/
structure RenderTransform where
  scale : Rat
  offsetX : Rat
  offsetY : Rat
deriving DecidableEq, Repr

/-- The per-frame transform: `scaleX = width / videoWidth`,
`scaleY = height / videoHeight`, `scale = Math.min(scaleX, scaleY)`,
`offsetX = (width - videoWidth * scale) / 2`,
`offsetY = (height - videoHeight * scale) / 2`. -/
def computeRenderTransform (width height videoWidth videoHeight : Rat) :
    RenderTransform :=
  let scaleX := width / videoWidth
  let scaleY := height / videoHeight
  let scale := min scaleX scaleY
  { scale := scale
    offsetX := (width - videoWidth * scale) / 2
    offsetY := (height - videoHeight * scale) / 2 }

/-- The fixed highlight color of the manual mask draw:
`const maskColor = { r: 0, g: 191, b: 255 }`. -/
structure MaskColor where
  r : Nat
  g : Nat
  b : Nat
deriving DecidableEq, Repr

/-- `maskColor` from `drawManualMask`. -/
def maskColor : MaskColor := ⟨0, 191, 255⟩

/-- `const maskOpacity = 0.7` from `drawManualMask`. -/
def maskOpacity : Rat := 7 / 10

/-- Storing an integer into a `Uint8ClampedArray` cell clamps it to the
byte range `[0, 255]`. -/
def clampByte (i : Int) : Nat := (min 255 (max 0 i)).toNat

/-- One cell of the mask-colorization loop of `drawManualMask`:
the output RGBA pixel is `(maskColor.r, maskColor.g, maskColor.b,
Math.floor(maskValue * maskOpacity * 255))`, written into a
`Uint8ClampedArray`. -/
def colorizeCell (v : Rat) : Nat × Nat × Nat × Nat :=
  (maskColor.r, maskColor.g, maskColor.b, clampByte (Int.floor (v * maskOpacity * 255)))

/-- The full colorization loop: one RGBA pixel per mask confidence cell. -/
def colorizeMask (data : List Rat) : List (Nat × Nat × Nat × Nat) :=
  data.map colorizeCell

/-- The externally-owned segmentation mask handed to `drawManualMask`.
`data` is the confidence buffer `getAsFloat32Array()` would return, and
`extractFails` says whether the body of the `try` block (data extraction,
colorization, or the blit to the target context) throws for this mask. -/
structure SegMask where
  width : Nat
  height : Nat
  data : List Rat
  extractFails : Bool
deriving DecidableEq, Repr

/-- Observable draw operations issued against the overlay canvas during
one render invocation. `clear w h` is `ctx.clearRect(0, 0, w, h)`;
`maskBlit px` is the blit of the colorized mask buffer; `connectors i`
and `landmarkPoints i` are the skeleton draws for the pose at index `i`. -/
inductive REvent where
  | clear (w h : Rat)
  | maskBlit (pixels : List (Nat × Nat × Nat × Nat))
  | connectors (poseIdx : Nat)
  | landmarkPoints (poseIdx : Nat)
deriving DecidableEq, Repr

/-- The outcome of one render invocation: the draw events issued, in
order, and how many times the mask's `close()` was called. -/
structure RenderOut where
  events : List REvent
  closeCalls : Nat
deriving DecidableEq, Repr

/-- `drawManualMask(mask, videoWidth, videoHeight, targetCtx)`
(poseDetection.js lines 141–198).  The `try` block extracts the mask
data, colorizes it into the reusable `ImageData`, and blits it; if it
throws, the `catch` only logs; the `finally` block calls `mask.close()`
exactly once on every path. Returns the events issued and the number of
`close()` calls. -/
def drawManualMask (mask : SegMask) : List REvent × Nat :=
  ((if mask.extractFails then [] else [REvent.maskBlit (colorizeMask mask.data)]), 1)

/-- `drawPoseResults(results, canvas, videoElement)` (poseDetection.js
lines 84–132), with the module-level state it reads made explicit:
`hasDrawingUtils` is `drawingUtils !== null`, `hasCanvas` is
`canvas !== null`, `landmarksList` is `results.landmarks` (a missing
field is modelled as the empty list, which the source treats the same
way), `segMask` is the module-level `segmentationMask`.

The body: if the utils/canvas guard fails, return with no work; else
clear the full canvas; if there are no poses, return; if
`videoElement.videoWidth` or `videoElement.videoHeight` is zero (falsy),
return; else apply the render transform, draw the mask when present via
`drawManualMask`, then for each pose draw connectors then landmark
points. -/
def drawPoseResults (hasDrawingUtils hasCanvas : Bool)
    (landmarksList : List (List Landmark))
    (canvasWidth canvasHeight videoWidth videoHeight : Rat)
    (segMask : Option SegMask) : RenderOut :=
  if !hasDrawingUtils || !hasCanvas then ⟨[], 0⟩
  else if landmarksList.isEmpty then ⟨[REvent.clear canvasWidth canvasHeight], 0⟩
  else if videoWidth = 0 ∨ videoHeight = 0 then
    ⟨[REvent.clear canvasWidth canvasHeight], 0⟩
  else
    let maskPart : List REvent × Nat :=
      match segMask with
      | none => ([], 0)
      | some m => drawManualMask m
    ⟨REvent.clear canvasWidth canvasHeight ::
        (maskPart.1 ++
          (List.range landmarksList.length).flatMap
            (fun i => [REvent.connectors i, REvent.landmarkPoints i])),
      maskPart.2⟩

/-- State of the frame scheduler (`runDetectionLoop` / `toggleDetection`
in the main video component) together with the environment it observes
each tick.  `active` is `detectionActive`, `scheduled` records whether a
`requestAnimationFrame` callback is pending (`animationFrameId`),
`detectFails` says whether `detectPoses` would throw on this tick, and
the counters record the externally visible work: detection calls issued
(`detectCount`), render calls issued (`renderCount`), and errors logged
(`errorCount`). -/
structure SchedState where
  active : Bool
  videoExists : Bool
  paused : Bool
  ended : Bool
  usingWebcam : Bool
  webcamReady : Bool
  readyState : Nat
  canvasExists : Bool
  detectFails : Bool
  detectCount : Nat
  renderCount : Nat
  errorCount : Nat
  scheduled : Bool
deriving DecidableEq, Repr

/-- The precondition guard at the top of `runDetectionLoop`:
`!detectionActive.value || !videoElement.value || paused || ended ||
(usingWebcam && !webcamReady) || readyState < 3`. -/
def preconditionsFail (s : SchedState) : Bool :=
  !s.active || !s.videoExists || s.paused || s.ended ||
    (s.usingWebcam && !s.webcamReady) || decide (s.readyState < 3)

/-- One tick of `runDetectionLoop`.  If the precondition guard fails,
reschedule only when still active.  Otherwise issue one detection call;
if it throws, log the error, clear `detectionActive`, and return without
rescheduling; on success render (when the overlay canvas exists) and
reschedule while still active. -/
def tick (s : SchedState) : SchedState :=
  if preconditionsFail s then
    { s with scheduled := s.active }
  else if s.detectFails then
    { s with detectCount := s.detectCount + 1,
             errorCount := s.errorCount + 1,
             active := false,
             scheduled := false }
  else
    { s with detectCount := s.detectCount + 1,
             renderCount := if s.canvasExists then s.renderCount + 1 else s.renderCount,
             scheduled := s.active }

/-- `toggleDetection()`: flip `detectionActive`; when it becomes true,
set the webcam-ready latch to `!usingWebcam` and start the loop (one
immediate tick); when it becomes false, cancel the pending animation
frame. -/
def toggleDetection (s : SchedState) : SchedState :=
  let s1 := { s with active := !s.active }
  if s1.active then
    tick { s1 with webcamReady := !s1.usingWebcam }
  else
    { s1 with scheduled := false }

/-- An environment step between two ticks: the video, webcam, canvas or
failure state may change arbitrarily, but only the scheduler itself
touches the `active` flag and the work counters. -/
def envStep (f : SchedState → SchedState) : Prop :=
  ∀ t : SchedState, (f t).active = t.active ∧ (f t).detectCount = t.detectCount ∧
    (f t).renderCount = t.renderCount ∧ (f t).errorCount = t.errorCount

/-- `steps env n s`: run `n` ticks, letting the environment `env i`
perturb the observed state before each tick. -/
def steps (env : Nat → SchedState → SchedState) : Nat → SchedState → SchedState
  | 0, s => s
  | n + 1, s => steps env n (tick (env n s))

/-! Helper lemmas about the bounding-box fold. -/

/-- One `bboxStep` always produces an ordered accumulator, since
`min a x ≤ x ≤ max c x`. -/
lemma bboxStep_ordered (acc : BBoxAcc) (lm : Landmark) :
    (bboxStep acc lm).minX ≤ (bboxStep acc lm).maxX ∧
    (bboxStep acc lm).minY ≤ (bboxStep acc lm).maxY :=
  ⟨le_trans (min_le_right _ _) (le_max_right _ _),
   le_trans (min_le_right _ _) (le_max_right _ _)⟩

/-- The bounding-box fold preserves orderedness of the accumulator. -/
lemma bboxFold_preserves (lms : List Landmark) :
    ∀ acc : BBoxAcc, acc.minX ≤ acc.maxX → acc.minY ≤ acc.maxY →
      (lms.foldl bboxStep acc).minX ≤ (lms.foldl bboxStep acc).maxX ∧
      (lms.foldl bboxStep acc).minY ≤ (lms.foldl bboxStep acc).maxY := by
  induction lms with
  | nil => exact fun acc hx hy => ⟨hx, hy⟩
  | cons lm t ih =>
      intro acc hx hy
      simp only [List.foldl_cons]
      exact ih (bboxStep acc lm)
        (le_trans (le_trans (min_le_left _ _) hx) (le_max_left _ _))
        (le_trans (le_trans (min_le_left _ _) hy) (le_max_left _ _))

/-- Folding over a non-empty landmark list yields an ordered accumulator
from any starting accumulator (in particular from the source's
`(1, 1, 0, 0)` start). -/
lemma bboxFold_cons_ordered (lm0 : Landmark) (rest : List Landmark) (acc : BBoxAcc) :
    ((lm0 :: rest).foldl bboxStep acc).minX ≤ ((lm0 :: rest).foldl bboxStep acc).maxX ∧
    ((lm0 :: rest).foldl bboxStep acc).minY ≤ ((lm0 :: rest).foldl bboxStep acc).maxY := by
  simp only [List.foldl_cons]
  exact bboxFold_preserves rest (bboxStep acc lm0)
    (bboxStep_ordered acc lm0).1 (bboxStep_ordered acc lm0).2

/-- C4: for every landmark set containing at least one point,
`calculatePoseBoundingBox` returns a box whose coordinates satisfy
`minX ≤ maxX` and `minY ≤ maxY`, whose `normalizedWidth` is
`maxX - minX` and `normalizedHeight` is `maxY - minY`, and both of these
are non-negative. -/
theorem boundingBox_well_formed (lm0 : Landmark) (rest : List Landmark) :
    ∃ b : BBox, calculatePoseBoundingBox (lm0 :: rest) = some b ∧
      b.minX ≤ b.maxX ∧ b.minY ≤ b.maxY ∧
      b.normalizedWidth = b.maxX - b.minX ∧
      b.normalizedHeight = b.maxY - b.minY ∧
      0 ≤ b.normalizedWidth ∧ 0 ≤ b.normalizedHeight := by
  have hord := bboxFold_cons_ordered lm0 rest ⟨1, 1, 0, 0⟩
  have hcalc : calculatePoseBoundingBox (lm0 :: rest) =
      some ⟨((lm0 :: rest).foldl bboxStep ⟨1, 1, 0, 0⟩).minX,
            ((lm0 :: rest).foldl bboxStep ⟨1, 1, 0, 0⟩).minY,
            ((lm0 :: rest).foldl bboxStep ⟨1, 1, 0, 0⟩).maxX,
            ((lm0 :: rest).foldl bboxStep ⟨1, 1, 0, 0⟩).maxY,
            ((lm0 :: rest).foldl bboxStep ⟨1, 1, 0, 0⟩).maxX -
              ((lm0 :: rest).foldl bboxStep ⟨1, 1, 0, 0⟩).minX,
            ((lm0 :: rest).foldl bboxStep ⟨1, 1, 0, 0⟩).maxY -
              ((lm0 :: rest).foldl bboxStep ⟨1, 1, 0, 0⟩).minY⟩ := by
    simp only [calculatePoseBoundingBox, List.isEmpty_cons, Bool.false_eq_true, if_false]
    rw [if_pos hord]
  exact ⟨_, hcalc, hord.1, hord.2, rfl, rfl, sub_nonneg.mpr hord.1, sub_nonneg.mpr hord.2⟩

/-- C10: the degenerate-box check of `calculatePoseBoundingBox` always
succeeds on a non-empty landmark list, whatever the coordinates are
(also outside `[0,1]`), because the min accumulators start at `1.0` and
the max accumulators at `0.0`; the `null`-returning branch is therefore
unreachable for non-empty input and the function always returns a box. -/
theorem boundingBox_total (lm0 : Landmark) (rest : List Landmark) :
    (calculatePoseBoundingBox (lm0 :: rest)).isSome = true := by
  have hord := bboxFold_cons_ordered lm0 rest ⟨1, 1, 0, 0⟩
  simp only [calculatePoseBoundingBox, List.isEmpty_cons, Bool.false_eq_true, if_false]
  rw [if_pos hord]
  rfl

/-- C8: for an empty landmark sequence, `calculatePoseBoundingBox`
returns no box (`null`, not a degenerate zero-size box), and
`drawPoseBoundingBox` of a `null` box issues no draw call and returns
without error. -/
theorem emptyLandmarks_no_box :
    calculatePoseBoundingBox [] = none ∧
    ∀ videoWidth videoHeight : Rat,
      drawPoseBoundingBox none videoWidth videoHeight = [] :=
  ⟨rfl, fun _ _ => rfl⟩

/-- C5: the per-frame render transform satisfies
`scale = min(canvasWidth/videoWidth, canvasHeight/videoHeight)` with
offsets centering the scaled video; for `(800, 600, 400, 300)` it is
`(scale 2, offsets 0, 0)`, for `(800, 600, 640, 480)` it is
`(scale 5/4, offsets 0, 0)`, and recomputation from the same four
inputs is deterministic. -/
theorem renderTransform_correct :
    computeRenderTransform 800 600 400 300 = ⟨2, 0, 0⟩ ∧
    computeRenderTransform 800 600 640 480 = ⟨5 / 4, 0, 0⟩ ∧
    (∀ w h vw vh : Rat,
      (computeRenderTransform w h vw vh).scale = min (w / vw) (h / vh) ∧
      (computeRenderTransform w h vw vh).offsetX =
        (w - vw * min (w / vw) (h / vh)) / 2 ∧
      (computeRenderTransform w h vw vh).offsetY =
        (h - vh * min (w / vw) (h / vh)) / 2 ∧
      computeRenderTransform w h vw vh = computeRenderTransform w h vw vh) := by
  refine ⟨?_, ?_, fun w h vw vh => ⟨rfl, rfl, rfl, rfl⟩⟩ <;>
    · simp only [computeRenderTransform, RenderTransform.mk.injEq]
      norm_num

/-! Helper lemmas about mask colorization. -/

/-- Clamping to the byte range is the identity on `[0, 255]`. -/
lemma clampByte_of_bounds (i : Int) (h0 : 0 ≤ i) (h255 : i ≤ 255) :
    clampByte i = i.toNat := by
  unfold clampByte
  rw [max_eq_right h0, min_eq_right h255]

/-- For a confidence in `[0, 1]` the clamped store never clamps: the
cell is exactly the fixed highlight color with alpha
`floor(confidence * maskOpacity * 255)`. -/
lemma colorizeCell_eq (v : Rat) (h0 : 0 ≤ v) (h1 : v ≤ 1) :
    colorizeCell v = (0, 191, 255, (Int.floor (v * maskOpacity * 255)).toNat) := by
  have hval0 : (0 : Rat) ≤ v * maskOpacity * 255 := by
    have : (0 : Rat) ≤ maskOpacity := by norm_num [maskOpacity]
    positivity
  have hval255 : v * maskOpacity * 255 ≤ 255 := by
    unfold maskOpacity
    nlinarith
  have hfl0 : (0 : Int) ≤ Int.floor (v * maskOpacity * 255) :=
    Int.floor_nonneg.mpr hval0
  have hfl255 : Int.floor (v * maskOpacity * 255) ≤ 255 := by
    have := Int.floor_le_floor hval255
    simpa using this
  unfold colorizeCell maskColor
  rw [clampByte_of_bounds _ hfl0 hfl255]

/-- C6: colorizing a mask whose confidences all lie in `[0, 1]` writes,
for every cell, the fixed highlight RGB `(0, 191, 255)` with alpha
`floor(confidence * maskOpacity * 255)`; with the configured opacity
`0.7`, confidence `1.0` yields alpha `178` and confidence `0.0` yields
alpha `0`. -/
theorem maskColorization_alpha (data : List Rat)
    (h : ∀ v ∈ data, 0 ≤ v ∧ v ≤ 1) :
    colorizeMask data =
      data.map (fun v => (0, 191, 255, (Int.floor (v * maskOpacity * 255)).toNat)) ∧
    colorizeCell 1 = (0, 191, 255, 178) ∧
    colorizeCell 0 = (0, 191, 255, 0) := by
  refine ⟨?_, ?_, ?_⟩
  · unfold colorizeMask
    exact List.map_congr_left fun v hv => colorizeCell_eq v (h v hv).1 (h v hv).2
  · rw [colorizeCell_eq 1 (by norm_num) (by norm_num)]
    norm_num [maskOpacity]
    rfl
  · rw [colorizeCell_eq 0 (by norm_num) (by norm_num)]
    norm_num [maskOpacity]

/-- C9: whenever the renderer's entry guard passes (drawing utils
initialized and a canvas supplied — without both, the invocation issues
no draw work at all), the very first operation of every render
invocation is a clear of the full canvas pixel buffer, including
invocations whose detection result contains no poses, for which the
clear is the only operation. -/
theorem canvas_cleared_first (lms : List (List Landmark))
    (cw ch vw vh : Rat) (mask : Option SegMask) :
    (drawPoseResults true true lms cw ch vw vh mask).events.head? =
      some (REvent.clear cw ch) ∧
    (drawPoseResults true true [] cw ch vw vh mask).events =
      [REvent.clear cw ch] ∧
    (∀ hu hc : Bool, (drawPoseResults hu hc lms cw ch vw vh mask).events = [] ∨
      (drawPoseResults hu hc lms cw ch vw vh mask).events.head? =
        some (REvent.clear cw ch)) := by
  refine ⟨?_, by simp [drawPoseResults], ?_⟩
  · by_cases h1 : lms.isEmpty <;> by_cases h2 : vw = 0 ∨ vh = 0 <;>
      simp [drawPoseResults, h1, h2]
  · intro hu hc
    cases hu <;> cases hc
    · exact Or.inl (by simp [drawPoseResults])
    · exact Or.inl (by simp [drawPoseResults])
    · exact Or.inl (by simp [drawPoseResults])
    · exact Or.inr (by
        by_cases h1 : lms.isEmpty <;> by_cases h2 : vw = 0 ∨ vh = 0 <;>
          simp [drawPoseResults, h1, h2])

/-- C1 counterexample: a render invocation whose detection result
carries an externally-owned segmentation mask but contains zero poses
returns before the mask-draw step, so the mask's `close()` is never
invoked during that invocation — not exactly once, as claimed. -/
theorem mask_not_closed_on_skipped_draw :
    (drawPoseResults true true [] 800 600 640 480
        (some ⟨256, 144, [1, 0], false⟩)).closeCalls ≠ 1 := by
  simp [drawPoseResults]

/-- C1 (amended): the mask's `close()` is invoked exactly once by a
render invocation precisely when the invocation reaches the mask-draw
step — drawing utils and canvas present, at least one pose, nonzero
video dimensions — and then exactly once even when the
colorize-and-blit step throws; on invocations that skip drawing (zero
poses, zero video dimensions, or missing utils) `close()` is not
invoked at all. -/
theorem mask_closed_exactly_once_when_drawn (lm0 : List Landmark)
    (rest : List (List Landmark)) (cw ch vw vh : Rat) (m : SegMask)
    (hvw : vw ≠ 0) (hvh : vh ≠ 0) :
    (drawPoseResults true true (lm0 :: rest) cw ch vw vh (some m)).closeCalls = 1 ∧
    (drawPoseResults true true (lm0 :: rest) cw ch vw vh
        (some { m with extractFails := true })).closeCalls = 1 ∧
    (drawPoseResults true true [] cw ch vw vh (some m)).closeCalls = 0 ∧
    (drawPoseResults true true (lm0 :: rest) cw ch 0 vh (some m)).closeCalls = 0 ∧
    (drawPoseResults false true (lm0 :: rest) cw ch vw vh (some m)).closeCalls = 0 := by
  refine ⟨?_, ?_, by simp [drawPoseResults], by simp [drawPoseResults],
    by simp [drawPoseResults]⟩ <;>
    simp [drawPoseResults, drawManualMask, hvw, hvh]

/-- C7 counterexample: when the canvas has zero area (here width `0`)
but the video dimensions are known, the renderer does not skip drawing —
it still issues the skeleton draw calls for the detected pose (at scale
`0`), since the code checks only the video dimensions. -/
theorem zeroAreaCanvas_still_draws :
    REvent.connectors 0 ∈
      (drawPoseResults true true [[⟨1 / 2, 1 / 2⟩]] 0 600 640 480 none).events := by
  have h2 : ¬((640 : Rat) = 0 ∨ (480 : Rat) = 0) := by norm_num
  simp [drawPoseResults, h2]

/-- C7 (amended): if the video's native pixel dimensions are zero (not
yet known), the renderer issues no draw work beyond the unconditional
canvas clear and returns normally, releasing nothing; a zero-area
canvas, however, is not checked and does not cause drawing to be
skipped. -/
theorem zeroVideoDims_skip_drawing (hu hc : Bool) (lms : List (List Landmark))
    (cw ch vw vh : Rat) (mask : Option SegMask) (h : vw = 0 ∨ vh = 0) :
    (drawPoseResults hu hc lms cw ch vw vh mask).events =
      (if hu && hc then [REvent.clear cw ch] else []) ∧
    (drawPoseResults hu hc lms cw ch vw vh mask).closeCalls = 0 := by
  cases hu <;> cases hc <;> by_cases h1 : lms.isEmpty <;>
    simp [drawPoseResults, h1, h]

/-! Helper lemmas about the frame scheduler. -/

/-- A tick that observes `detectionActive = false` does nothing: it hits
the precondition guard, does not reschedule, and leaves all counters and
flags unchanged. -/
lemma tick_inactive (s : SchedState) (h : s.active = false) :
    tick s = { s with scheduled := false } := by
  have hpre : preconditionsFail s = true := by simp [preconditionsFail, h]
  simp [tick, hpre, h]

/-- Once `detectionActive` is false, any number of further ticks — with
the environment perturbing everything except the flag and the counters
between ticks — performs no detection, no render, and logs nothing. -/
lemma steps_inactive (env : Nat → SchedState → SchedState)
    (henv : ∀ n, envStep (env n)) (n : Nat) :
    ∀ s : SchedState, s.active = false →
      (steps env n s).active = false ∧
      (steps env n s).detectCount = s.detectCount ∧
      (steps env n s).renderCount = s.renderCount ∧
      (steps env n s).errorCount = s.errorCount := by
  induction n with
  | zero => exact fun s h => ⟨h, rfl, rfl, rfl⟩
  | succ n ih =>
      intro s h
      obtain ⟨ha, hd, hr, he⟩ := henv n s
      have htick := tick_inactive (env n s) (ha.trans h)
      simp only [steps, htick]
      obtain ⟨ih1, ih2, ih3, ih4⟩ :=
        ih { env n s with scheduled := false } (by simpa using ha.trans h)
      exact ⟨ih1, by simpa [hd] using ih2, by simpa [hr] using ih3,
             by simpa [he] using ih4⟩

/-- Toggling the active flag off from an active state cancels the
pending animation frame and clears the flag, touching nothing else. -/
lemma toggleDetection_off (s : SchedState) (h : s.active = true) :
    toggleDetection s = { s with active := false, scheduled := false } := by
  simp [toggleDetection, h]

/-- C2: after `toggleDetection` turns the active flag off, the very next
scheduled tick observes it and performs no detection and no render work
(and does not reschedule); and for any number of further ticks, with the
environment free to change everything except the flag and the counters,
zero further detection or render calls are issued while the flag stays
off. -/
theorem toggleOff_stops_detection (s : SchedState) (h : s.active = true)
    (env : Nat → SchedState → SchedState) (henv : ∀ n, envStep (env n)) (n : Nat) :
    (toggleDetection s).active = false ∧
    (tick (toggleDetection s)).detectCount = s.detectCount ∧
    (tick (toggleDetection s)).renderCount = s.renderCount ∧
    (tick (toggleDetection s)).scheduled = false ∧
    (steps env n (toggleDetection s)).active = false ∧
    (steps env n (toggleDetection s)).detectCount = s.detectCount ∧
    (steps env n (toggleDetection s)).renderCount = s.renderCount := by
  have htog := toggleDetection_off s h
  have hoff : (toggleDetection s).active = false := by rw [htog]
  have htick := tick_inactive (toggleDetection s) hoff
  obtain ⟨h1, h2, h3, _⟩ := steps_inactive env henv n (toggleDetection s) hoff
  refine ⟨hoff, ?_, ?_, ?_, h1, ?_, ?_⟩
  · rw [htick, htog]
  · rw [htick, htog]
  · rw [htick]
  · rw [h2, htog]
  · rw [h3, htog]

/-- C3: when a qualifying tick's detection call raises an error, the
scheduler logs it, clears the active flag, and does not reschedule; and
no matter how the environment evolves afterwards, no further detection
call is ever issued (no automatic retry) while the flag stays off. -/
theorem detectionError_fail_stop (s : SchedState)
    (hpre : preconditionsFail s = false) (hfail : s.detectFails = true)
    (env : Nat → SchedState → SchedState) (henv : ∀ n, envStep (env n)) (n : Nat) :
    (tick s).detectCount = s.detectCount + 1 ∧
    (tick s).errorCount = s.errorCount + 1 ∧
    (tick s).active = false ∧
    (tick s).scheduled = false ∧
    (tick s).renderCount = s.renderCount ∧
    (steps env n (tick s)).detectCount = s.detectCount + 1 ∧
    (steps env n (tick s)).active = false := by
  have htick : tick s =
      { s with detectCount := s.detectCount + 1,
               errorCount := s.errorCount + 1,
               active := false,
               scheduled := false } := by
    simp [tick, hpre, hfail]
  have hoff : (tick s).active = false := by rw [htick]
  obtain ⟨h1, h2, _, _⟩ := steps_inactive env henv n (tick s) hoff
  refine ⟨by rw [htick], by rw [htick], hoff, by rw [htick], by rw [htick], ?_, h1⟩
  rw [h2, htick]

/-- Witness for the amended C1 theorem at concrete inputs: a
`640 × 480` video, one pose, and a `2 × 2` mask. -/
theorem mask_closed_exactly_once_witness :
    (640 : Rat) ≠ 0 ∧ (480 : Rat) ≠ 0 ∧
    (drawPoseResults true true [[⟨1 / 2, 1 / 2⟩]] 800 600 640 480
        (some ⟨2, 2, [1, 0, 1 / 2, 1 / 4], false⟩)).closeCalls = 1 ∧
    (drawPoseResults true true [[⟨1 / 2, 1 / 2⟩]] 800 600 640 480
        (some ⟨2, 2, [1, 0, 1 / 2, 1 / 4], true⟩)).closeCalls = 1 ∧
    (drawPoseResults true true [] 800 600 640 480
        (some ⟨2, 2, [1, 0, 1 / 2, 1 / 4], false⟩)).closeCalls = 0 :=
  ⟨by norm_num, by norm_num,
   (mask_closed_exactly_once_when_drawn [⟨1 / 2, 1 / 2⟩] [] 800 600 640 480
      ⟨2, 2, [1, 0, 1 / 2, 1 / 4], false⟩ (by norm_num) (by norm_num)).1,
   (mask_closed_exactly_once_when_drawn [⟨1 / 2, 1 / 2⟩] [] 800 600 640 480
      ⟨2, 2, [1, 0, 1 / 2, 1 / 4], false⟩ (by norm_num) (by norm_num)).2.1,
   (mask_closed_exactly_once_when_drawn [⟨1 / 2, 1 / 2⟩] [] 800 600 640 480
      ⟨2, 2, [1, 0, 1 / 2, 1 / 4], false⟩ (by norm_num) (by norm_num)).2.2.1⟩

/-- Witness for the C2 theorem at a concrete active scheduler state, the
identity environment, and three further ticks. -/
theorem toggleOff_stops_detection_witness :
    (SchedState.mk true true false false false true 4 true false 0 0 0 true).active = true ∧
    envStep (fun t : SchedState => t) ∧
    (steps (fun _ t => t) 3
      (toggleDetection
        (SchedState.mk true true false false false true 4 true false 0 0 0 true))).detectCount = 0 ∧
    (steps (fun _ t => t) 3
      (toggleDetection
        (SchedState.mk true true false false false true 4 true false 0 0 0 true))).renderCount = 0 :=
  ⟨rfl, fun _ => ⟨rfl, rfl, rfl, rfl⟩,
   (toggleOff_stops_detection
      (SchedState.mk true true false false false true 4 true false 0 0 0 true) rfl
      (fun _ t => t) (fun _ _ => ⟨rfl, rfl, rfl, rfl⟩) 3).2.2.2.2.2.1,
   (toggleOff_stops_detection
      (SchedState.mk true true false false false true 4 true false 0 0 0 true) rfl
      (fun _ t => t) (fun _ _ => ⟨rfl, rfl, rfl, rfl⟩) 3).2.2.2.2.2.2⟩

/-- Witness for the C3 theorem at a concrete qualifying state whose
detection call fails, with the identity environment and four further
ticks. -/
theorem detectionError_fail_stop_witness :
    preconditionsFail
      (SchedState.mk true true false false false false 4 true true 0 0 0 true) = false ∧
    (SchedState.mk true true false false false false 4 true true 0 0 0 true).detectFails = true ∧
    (tick (SchedState.mk true true false false false false 4 true true 0 0 0 true)).active = false ∧
    (tick (SchedState.mk true true false false false false 4 true true 0 0 0 true)).errorCount = 1 ∧
    (steps (fun _ t => t) 4
      (tick (SchedState.mk true true false false false false 4 true true 0 0 0 true))).detectCount = 1 :=
  ⟨rfl, rfl,
   (detectionError_fail_stop
      (SchedState.mk true true false false false false 4 true true 0 0 0 true) rfl rfl
      (fun _ t => t) (fun _ _ => ⟨rfl, rfl, rfl, rfl⟩) 4).2.2.1,
   (detectionError_fail_stop
      (SchedState.mk true true false false false false 4 true true 0 0 0 true) rfl rfl
      (fun _ t => t) (fun _ _ => ⟨rfl, rfl, rfl, rfl⟩) 4).2.1,
   (detectionError_fail_stop
      (SchedState.mk true true false false false false 4 true true 0 0 0 true) rfl rfl
      (fun _ t => t) (fun _ _ => ⟨rfl, rfl, rfl, rfl⟩) 4).2.2.2.2.2.1⟩

/-- Witness for the C6 theorem at the concrete mask buffer `[1, 0]`. -/
theorem maskColorization_alpha_witness :
    (∀ v ∈ ([1, 0] : List Rat), 0 ≤ v ∧ v ≤ 1) ∧
    colorizeCell 1 = (0, 191, 255, 178) ∧
    colorizeCell 0 = (0, 191, 255, 0) ∧
    colorizeMask [1, 0] =
      ([1, 0] : List Rat).map
        (fun v => (0, 191, 255, (Int.floor (v * maskOpacity * 255)).toNat)) :=
  ⟨by intro v hv; fin_cases hv <;> norm_num,
   (maskColorization_alpha [1, 0]
      (by intro v hv; fin_cases hv <;> norm_num)).2.1,
   (maskColorization_alpha [1, 0]
      (by intro v hv; fin_cases hv <;> norm_num)).2.2,
   (maskColorization_alpha [1, 0]
      (by intro v hv; fin_cases hv <;> norm_num)).1⟩

/-- Witness for the amended C7 theorem at a concrete invocation whose
video width is zero. -/
theorem zeroVideoDims_skip_drawing_witness :
    ((0 : Rat) = 0 ∨ (480 : Rat) = 0) ∧
    (drawPoseResults true true [[⟨1 / 2, 1 / 2⟩]] 800 600 0 480
        (some ⟨2, 2, [1, 0, 1, 0], true⟩)).events = [REvent.clear 800 600] ∧
    (drawPoseResults true true [[⟨1 / 2, 1 / 2⟩]] 800 600 0 480
        (some ⟨2, 2, [1, 0, 1, 0], true⟩)).closeCalls = 0 :=
  ⟨Or.inl rfl,
   (zeroVideoDims_skip_drawing true true [[⟨1 / 2, 1 / 2⟩]] 800 600 0 480
      (some ⟨2, 2, [1, 0, 1, 0], true⟩) (Or.inl rfl)).1,
   (zeroVideoDims_skip_drawing true true [[⟨1 / 2, 1 / 2⟩]] 800 600 0 480
      (some ⟨2, 2, [1, 0, 1, 0], true⟩) (Or.inl rfl)).2⟩

end NCI
